import Mathlib

set_option autoImplicit false

/-!
Shallow embedding of `src/services/backend/app/src/database/service.py`
(`class DatabaseService`) from the fastapi_pg_sqlalchemy_starter repository.

Configuration values imported from `src.config` (`SHARED_SCHEMA_NAME`,
`TENANT_SCHEMA_NAME`, `IN_MAINTENANCE`) are opaque inputs at this layer and
are modelled as fields of a `Config` record.  Database-side state touched by
the provisioning and cloning routines is modelled explicitly (`PgState`,
`Catalog`), and the resource behaviour of each routine is modelled as a
trace of events, so that acquisition/release and commit/rollback discipline
can be stated and checked.
-/

namespace DatabaseService

/-- The configuration values read from `src.config`. -/
structure Config where
  sharedSchemaName : String
  tenantSchemaName : String
  inMaintenance : Bool
  deriving Repr, DecidableEq

/-- A `schema_translate_map` dictionary.  The only alias keys the code ever
writes are `'tenant'` and `'shared'`, so the dict is modelled as a record
with one `Option (Option String)` field per alias: `none` models the key
being absent from the dict (alias left at its default), `some none` models
the key mapped to Python `None` (remapping disabled), and `some (some s)`
models the alias remapped to the concrete schema `s`. -/
structure SchemaTranslateMap where
  tenant : Option (Option String)
  shared : Option (Option String)
  deriving Repr, DecidableEq

/-- `DatabaseService.get_schema_context` (service.py lines 55-62): if
`schema_name` equals `SHARED_SCHEMA_NAME` the map is `{'tenant': None}`,
otherwise `{'tenant': schema_name, 'shared': None}`. -/
def get_schema_context (cfg : Config) (schema_name : String) : SchemaTranslateMap :=
  if schema_name = cfg.sharedSchemaName then
    { tenant := some none, shared := none }
  else
    { tenant := some (some schema_name), shared := some none }

/-- `get_schema_context` invoked with its default argument
(`schema_name: str = SHARED_SCHEMA_NAME`). -/
def get_schema_context_default (cfg : Config) : SchemaTranslateMap :=
  get_schema_context cfg cfg.sharedSchemaName

/-- Observable resource events of one `async_session` invocation:
session construction by the session maker, connection acquisition with the
schema context bound via execution options, a successful `commit()`, a
`commit()` call that raised (`commitAttempt`), a `rollback()`, and the
`close()` in the `finally` block. -/
inductive SessionEvent where
  | createSession
  | acquireConnection (ctx : SchemaTranslateMap)
  | commit
  | commitAttempt
  | rollback
  | close
  deriving Repr, DecidableEq

/-- What an `async_session` invocation raises, if anything.  `ε` is the type
of failures the caller's unit of work may raise; `uow e` is that exact
failure re-raised by the bare `raise`, `httpException` is the maintenance
rejection, `commitFailure` is an error raised by `session.commit()` itself. -/
inductive SessionError (ε : Type) where
  | httpException (statusCode : Nat) (detail : String)
  | uow (e : ε)
  | commitFailure
  deriving Repr, DecidableEq

/-- `DatabaseService.async_session` (service.py lines 64-97) as a trace
semantics.  The caller's unit of work is abstracted by its outcome
`uow : Except ε Unit`, and `commitOk` abstracts whether `session.commit()`
itself succeeds.  Control flow of the source: if `IN_MAINTENANCE`, raise an
HTTP 503 before any session or connection exists; otherwise build the
session, acquire its connection with the schema context, then
`try: yield; commit / except: rollback; raise / finally: close`.  A failing
commit is caught by the bare `except:`, which rolls back and re-raises. -/
def async_session (cfg : Config) (schema_name : String) (commitOk : Bool)
    {ε : Type} (uow : Except ε Unit) :
    List SessionEvent × Except (SessionError ε) Unit :=
  if cfg.inMaintenance then
    ([], .error (.httpException 503 "Service is currently under maintenance."))
  else
    let pre : List SessionEvent :=
      [.createSession, .acquireConnection (get_schema_context cfg schema_name)]
    match uow with
    | .error e => (pre ++ [.rollback, .close], .error (.uow e))
    | .ok _ =>
      if commitOk then
        (pre ++ [.commit, .close], .ok ())
      else
        (pre ++ [.commitAttempt, .rollback, .close], .error .commitFailure)

/-- `async_session` invoked with its default argument
(`schema_name: str = SHARED_SCHEMA_NAME`). -/
def async_session_default (cfg : Config) (commitOk : Bool) {ε : Type}
    (uow : Except ε Unit) : List SessionEvent × Except (SessionError ε) Unit :=
  async_session cfg cfg.sharedSchemaName commitOk uow

/-- Number of sessions constructed in a trace. -/
def sessionCount : List SessionEvent → Nat
  | [] => 0
  | .createSession :: tr => sessionCount tr + 1
  | _ :: tr => sessionCount tr

/-- Number of connections acquired in a trace. -/
def acquireCount : List SessionEvent → Nat
  | [] => 0
  | .acquireConnection _ :: tr => acquireCount tr + 1
  | _ :: tr => acquireCount tr

/-- Number of successful commits in a trace. -/
def commitCount : List SessionEvent → Nat
  | [] => 0
  | .commit :: tr => commitCount tr + 1
  | _ :: tr => commitCount tr

/-- Number of rollbacks in a trace. -/
def rollbackCount : List SessionEvent → Nat
  | [] => 0
  | .rollback :: tr => rollbackCount tr + 1
  | _ :: tr => rollbackCount tr

/-- Number of `close()` releases in a trace. -/
def closeCount : List SessionEvent → Nat
  | [] => 0
  | .close :: tr => closeCount tr + 1
  | _ :: tr => closeCount tr

/-- Net effect of a trace on the number of checked-out pool connections:
each acquisition takes one, each close returns one. -/
def poolDelta : List SessionEvent → Int
  | [] => 0
  | .acquireConnection _ :: tr => poolDelta tr + 1
  | .close :: tr => poolDelta tr - 1
  | _ :: tr => poolDelta tr

/-- Claim C1: the schema context resolver is a pure function of its
schema-name argument; for `S ≠ SHARED_SCHEMA_NAME` it maps alias
`'tenant'` to `S` and alias `'shared'` to `None` (disabled), and for the
shared sentinel it maps `'tenant'` to `None` and leaves `'shared'` absent
(at its default). -/
theorem get_schema_context_resolves (cfg : Config) (S : String)
    (h : S ≠ cfg.sharedSchemaName) :
    (get_schema_context cfg S).tenant = some (some S) ∧
    (get_schema_context cfg S).shared = some none ∧
    (get_schema_context cfg cfg.sharedSchemaName).tenant = some none ∧
    (get_schema_context cfg cfg.sharedSchemaName).shared = none := by
  simp [get_schema_context, h]

/-- Witness for C1 at a concrete configuration and tenant name. -/
theorem get_schema_context_resolves_witness :
    (get_schema_context ⟨"shared", "tenant", false⟩ "acme").tenant = some (some "acme") ∧
    (get_schema_context ⟨"shared", "tenant", false⟩ "acme").shared = some none ∧
    (get_schema_context ⟨"shared", "tenant", false⟩ "shared").tenant = some none ∧
    (get_schema_context ⟨"shared", "tenant", false⟩ "shared").shared = none :=
  get_schema_context_resolves ⟨"shared", "tenant", false⟩ "acme" (by decide)

/-- Claim C2: when the unit of work raises any failure `e`, the session
manager rolls the transaction back, closes the session (in this order,
with the close last), and re-raises exactly the original failure object:
the result error is `uow e`, never a reclassified or swallowed failure. -/
theorem async_session_reraises (cfg : Config) (schema_name : String)
    (commitOk : Bool) {ε : Type} (e : ε) (hm : cfg.inMaintenance = false) :
    async_session cfg schema_name commitOk (Except.error e) =
      ([SessionEvent.createSession,
        SessionEvent.acquireConnection (get_schema_context cfg schema_name),
        SessionEvent.rollback, SessionEvent.close],
       Except.error (SessionError.uow e)) := by
  simp [async_session, hm]

/-- Witness for C2 at a concrete configuration and failure value. -/
theorem async_session_reraises_witness :
    async_session ⟨"shared", "tenant", false⟩ "acme" true (Except.error 7) =
      ([SessionEvent.createSession,
        SessionEvent.acquireConnection
          (get_schema_context ⟨"shared", "tenant", false⟩ "acme"),
        SessionEvent.rollback, SessionEvent.close],
       Except.error (SessionError.uow 7)) :=
  async_session_reraises ⟨"shared", "tenant", false⟩ "acme" true 7 rfl

/-- Claim C3: for every schema name and unit of work, requesting a session
while `IN_MAINTENANCE` is set yields exactly an HTTP 503 error with an
empty resource trace: no session is created, no connection is acquired,
and the pool is unchanged. -/
theorem async_session_maintenance (cfg : Config) (schema_name : String)
    (commitOk : Bool) {ε : Type} (uow : Except ε Unit)
    (hm : cfg.inMaintenance = true) :
    async_session cfg schema_name commitOk uow =
      ([], Except.error (SessionError.httpException 503
            "Service is currently under maintenance.")) ∧
    sessionCount (async_session cfg schema_name commitOk uow).1 = 0 ∧
    acquireCount (async_session cfg schema_name commitOk uow).1 = 0 ∧
    poolDelta (async_session cfg schema_name commitOk uow).1 = 0 := by
  simp [async_session, hm, sessionCount, acquireCount, poolDelta]

/-- Witness for C3 at a concrete configuration in maintenance mode. -/
theorem async_session_maintenance_witness :
    async_session (ε := Unit) ⟨"shared", "tenant", true⟩ "acme" true (Except.ok ()) =
      ([], Except.error (SessionError.httpException 503
            "Service is currently under maintenance.")) ∧
    sessionCount (async_session (ε := Unit) ⟨"shared", "tenant", true⟩ "acme" true (Except.ok ())).1 = 0 ∧
    acquireCount (async_session (ε := Unit) ⟨"shared", "tenant", true⟩ "acme" true (Except.ok ())).1 = 0 ∧
    poolDelta (async_session (ε := Unit) ⟨"shared", "tenant", true⟩ "acme" true (Except.ok ())).1 = 0 :=
  async_session_maintenance ⟨"shared", "tenant", true⟩ "acme" true (Except.ok ()) rfl

/-- Claim C8: every invocation that passes the maintenance check performs
exactly one successful commit or exactly one rollback (never both, never
neither — a commit that itself fails counts as no commit and is followed
by the rollback), creates exactly one session, acquires exactly one
connection, and closes it as the last event on every exit path, including
the commit-failure path. -/
theorem async_session_transaction_discipline (cfg : Config)
    (schema_name : String) (commitOk : Bool) {ε : Type} (uow : Except ε Unit)
    (hm : cfg.inMaintenance = false) :
    ((commitCount (async_session cfg schema_name commitOk uow).1 = 1 ∧
      rollbackCount (async_session cfg schema_name commitOk uow).1 = 0) ∨
     (commitCount (async_session cfg schema_name commitOk uow).1 = 0 ∧
      rollbackCount (async_session cfg schema_name commitOk uow).1 = 1)) ∧
    sessionCount (async_session cfg schema_name commitOk uow).1 = 1 ∧
    acquireCount (async_session cfg schema_name commitOk uow).1 = 1 ∧
    closeCount (async_session cfg schema_name commitOk uow).1 = 1 ∧
    (∃ tr, (async_session cfg schema_name commitOk uow).1
            = tr ++ [SessionEvent.close]) := by
  cases uow with
  | error e =>
    refine ⟨Or.inr ⟨?_, ?_⟩, ?_, ?_, ?_,
        ⟨[SessionEvent.createSession,
          SessionEvent.acquireConnection (get_schema_context cfg schema_name),
          SessionEvent.rollback], ?_⟩⟩ <;>
      simp [async_session, hm, commitCount, rollbackCount, sessionCount,
        acquireCount, closeCount]
  | ok u =>
    cases commitOk with
    | true =>
      refine ⟨Or.inl ⟨?_, ?_⟩, ?_, ?_, ?_,
          ⟨[SessionEvent.createSession,
            SessionEvent.acquireConnection (get_schema_context cfg schema_name),
            SessionEvent.commit], ?_⟩⟩ <;>
        simp [async_session, hm, commitCount, rollbackCount, sessionCount,
          acquireCount, closeCount]
    | false =>
      refine ⟨Or.inr ⟨?_, ?_⟩, ?_, ?_, ?_,
          ⟨[SessionEvent.createSession,
            SessionEvent.acquireConnection (get_schema_context cfg schema_name),
            SessionEvent.commitAttempt, SessionEvent.rollback], ?_⟩⟩ <;>
        simp [async_session, hm, commitCount, rollbackCount, sessionCount,
          acquireCount, closeCount]

/-- Witness for C8 at a concrete configuration, on the commit-failure path. -/
theorem async_session_transaction_discipline_witness :
    ((commitCount (async_session (ε := Nat) ⟨"shared", "tenant", false⟩ "acme" false (Except.ok ())).1 = 1 ∧
      rollbackCount (async_session (ε := Nat) ⟨"shared", "tenant", false⟩ "acme" false (Except.ok ())).1 = 0) ∨
     (commitCount (async_session (ε := Nat) ⟨"shared", "tenant", false⟩ "acme" false (Except.ok ())).1 = 0 ∧
      rollbackCount (async_session (ε := Nat) ⟨"shared", "tenant", false⟩ "acme" false (Except.ok ())).1 = 1)) ∧
    sessionCount (async_session (ε := Nat) ⟨"shared", "tenant", false⟩ "acme" false (Except.ok ())).1 = 1 ∧
    acquireCount (async_session (ε := Nat) ⟨"shared", "tenant", false⟩ "acme" false (Except.ok ())).1 = 1 ∧
    closeCount (async_session (ε := Nat) ⟨"shared", "tenant", false⟩ "acme" false (Except.ok ())).1 = 1 ∧
    (∃ tr, (async_session (ε := Nat) ⟨"shared", "tenant", false⟩ "acme" false (Except.ok ())).1
            = tr ++ [SessionEvent.close]) :=
  async_session_transaction_discipline ⟨"shared", "tenant", false⟩ "acme" false
    (Except.ok ()) rfl

/-- Claim C10: omitting the schema-name argument behaves exactly as
supplying `SHARED_SCHEMA_NAME`: the zero-argument session manager and
context resolver coincide with the sentinel-argument versions for every
configuration and unit of work. -/
theorem default_argument_is_shared_sentinel (cfg : Config) (commitOk : Bool)
    {ε : Type} (uow : Except ε Unit) :
    async_session_default cfg commitOk uow =
      async_session cfg cfg.sharedSchemaName commitOk uow ∧
    get_schema_context_default cfg =
      get_schema_context cfg cfg.sharedSchemaName :=
  ⟨rfl, rfl⟩

/-- Persistent database-cluster state seen by the provisioning routines:
whether the target database exists, which schemas exist in it, and how many
times `alembic upgrade head` has been run. -/
structure PgState where
  dbExists : Bool
  schemas : List String
  migrationRuns : Nat
  deriving Repr, DecidableEq

/-- The creation side effects `create_db` can perform:
`sqlalchemy_utils.create_database`, `cls.create_schema(name)`, and
`cls.run_migrations()`. -/
inductive ProvisionAction where
  | createDatabaseAct
  | createSchemaAct (name : String)
  | runMigrationsAct
  deriving Repr, DecidableEq

/-- State effect of `DatabaseService.create_schema` (service.py lines
119-141): create the schema iff it is absent (the `has_schema` guard);
already-existing schemas are left untouched. -/
def create_schema_state (name : String) (s : PgState) : PgState :=
  if name ∈ s.schemas then s else { s with schemas := name :: s.schemas }

/-- The state after the creation branch of `create_db` (lines 102-109):
physical database created (when the external call takes effect), shared
schema created, tenant template schema created, one migration run. -/
def provision_state (cfg : Config) (createEffective : Bool) (s : PgState) :
    PgState :=
  let s1 := if createEffective then { s with dbExists := true } else s
  let s2 := create_schema_state cfg.sharedSchemaName s1
  let s3 := create_schema_state cfg.tenantSchemaName s2
  { s3 with migrationRuns := s3.migrationRuns + 1 }

/-- `DatabaseService.create_db` (service.py lines 99-117).  `createEffective`
abstracts the external `create_database` call: whether the physical creation
actually takes effect (the code re-probes `database_exists` after the
migrations and raises `Exception('COULD NOT CREATE DATABASE!')` if not).
Returns the resulting state together with the list of creation side effects
performed, in order, or the fatal error. -/
def create_db (cfg : Config) (createEffective : Bool) (s : PgState) :
    Except String (PgState × List ProvisionAction) :=
  if s.dbExists then
    .ok (s, [])
  else
    let s4 := provision_state cfg createEffective s
    if s4.dbExists then
      .ok (s4, [.createDatabaseAct, .createSchemaAct cfg.sharedSchemaName,
                .createSchemaAct cfg.tenantSchemaName, .runMigrationsAct])
    else
      .error "COULD NOT CREATE DATABASE!"

theorem create_schema_state_dbExists (name : String) (s : PgState) :
    (create_schema_state name s).dbExists = s.dbExists := by
  unfold create_schema_state; split <;> rfl

theorem create_schema_state_migrationRuns (name : String) (s : PgState) :
    (create_schema_state name s).migrationRuns = s.migrationRuns := by
  unfold create_schema_state; split <;> rfl

theorem create_schema_state_mem (name : String) (s : PgState) :
    name ∈ (create_schema_state name s).schemas := by
  unfold create_schema_state; split <;> simp_all

theorem create_schema_state_mono (name m : String) (s : PgState)
    (h : m ∈ s.schemas) : m ∈ (create_schema_state name s).schemas := by
  unfold create_schema_state; split <;> simp_all

theorem provision_state_dbExists_true (cfg : Config) (s : PgState) :
    (provision_state cfg true s).dbExists = true := by
  simp [provision_state, create_schema_state_dbExists]

theorem provision_state_dbExists_false (cfg : Config) (s : PgState) :
    (provision_state cfg false s).dbExists = s.dbExists := by
  simp [provision_state, create_schema_state_dbExists]

theorem provision_state_migrationRuns (cfg : Config) (eff : Bool)
    (s : PgState) :
    (provision_state cfg eff s).migrationRuns = s.migrationRuns + 1 := by
  cases eff <;>
    simp [provision_state, create_schema_state_migrationRuns]

theorem provision_state_shared_mem (cfg : Config) (eff : Bool) (s : PgState) :
    cfg.sharedSchemaName ∈ (provision_state cfg eff s).schemas :=
  create_schema_state_mono _ _ _ (create_schema_state_mem _ _)

theorem provision_state_tenant_mem (cfg : Config) (eff : Bool) (s : PgState) :
    cfg.tenantSchemaName ∈ (provision_state cfg eff s).schemas :=
  create_schema_state_mem _ _

theorem create_db_ok_dbExists (cfg : Config) (eff : Bool) (s s1 : PgState)
    (tr : List ProvisionAction) (h : create_db cfg eff s = .ok (s1, tr)) :
    s1.dbExists = true := by
  simp only [create_db] at h
  split at h
  · next hd =>
    simp only [Except.ok.injEq, Prod.mk.injEq] at h
    rw [← h.1]
    exact hd
  · split at h
    · next hd4 =>
      simp only [Except.ok.injEq, Prod.mk.injEq] at h
      rw [← h.1]
      exact hd4
    · simp at h

/-- Claim C5: `create_db` is idempotent.  When the underlying creation is
effective, the second call — run from the state a successful first call
produced — finds the database present, returns the state unchanged, and
performs no creation side effects at all (empty action list: no database
creation, no schema creation, no migration run). -/
theorem create_db_idempotent (cfg : Config) (s s1 : PgState)
    (tr : List ProvisionAction)
    (h : create_db cfg true s = .ok (s1, tr)) :
    create_db cfg true s1 = .ok (s1, []) := by
  have h1 : s1.dbExists = true := create_db_ok_dbExists cfg true s s1 tr h
  simp [create_db, h1]

/-- Witness for C5: a fresh concrete state, provisioned once, then again. -/
theorem create_db_idempotent_witness :
    create_db ⟨"shared", "tenant", false⟩ true
        { dbExists := true, schemas := ["tenant", "shared"], migrationRuns := 1 } =
      .ok ({ dbExists := true, schemas := ["tenant", "shared"], migrationRuns := 1 }, []) :=
  create_db_idempotent ⟨"shared", "tenant", false⟩
    { dbExists := false, schemas := [], migrationRuns := 0 }
    { dbExists := true, schemas := ["tenant", "shared"], migrationRuns := 1 }
    [.createDatabaseAct, .createSchemaAct "shared", .createSchemaAct "tenant",
     .runMigrationsAct]
    rfl

/-- Claim C6: on a fresh system (database absent), `create_db` performs, in
order, database creation, shared-schema creation, tenant-template-schema
creation, and a migration run; afterwards the database existence probe
returns true and both schemas exist.  If the creation did not take effect,
the post-migration re-check fails and the call raises the fatal
`COULD NOT CREATE DATABASE!` error. -/
theorem create_db_fresh_provisions (cfg : Config) (s : PgState)
    (h : s.dbExists = false) :
    (∃ s1 : PgState,
      create_db cfg true s =
        .ok (s1, [ProvisionAction.createDatabaseAct,
                  ProvisionAction.createSchemaAct cfg.sharedSchemaName,
                  ProvisionAction.createSchemaAct cfg.tenantSchemaName,
                  ProvisionAction.runMigrationsAct]) ∧
      s1.dbExists = true ∧
      cfg.sharedSchemaName ∈ s1.schemas ∧
      cfg.tenantSchemaName ∈ s1.schemas ∧
      s1.migrationRuns = s.migrationRuns + 1) ∧
    create_db cfg false s = .error "COULD NOT CREATE DATABASE!" := by
  constructor
  · refine ⟨provision_state cfg true s, ?_, provision_state_dbExists_true cfg s,
      provision_state_shared_mem cfg true s, provision_state_tenant_mem cfg true s,
      provision_state_migrationRuns cfg true s⟩
    simp [create_db, h, provision_state_dbExists_true]
  · simp [create_db, h, provision_state_dbExists_false]

/-- Witness for C6 at a concrete fresh state. -/
theorem create_db_fresh_provisions_witness :
    (∃ s1 : PgState,
      create_db ⟨"shared", "tenant", false⟩ true
          { dbExists := false, schemas := [], migrationRuns := 0 } =
        .ok (s1, [ProvisionAction.createDatabaseAct,
                  ProvisionAction.createSchemaAct "shared",
                  ProvisionAction.createSchemaAct "tenant",
                  ProvisionAction.runMigrationsAct]) ∧
      s1.dbExists = true ∧
      "shared" ∈ s1.schemas ∧
      "tenant" ∈ s1.schemas ∧
      s1.migrationRuns = 0 + 1) ∧
    create_db ⟨"shared", "tenant", false⟩ false
        { dbExists := false, schemas := [], migrationRuns := 0 } =
      .error "COULD NOT CREATE DATABASE!" :=
  create_db_fresh_provisions ⟨"shared", "tenant", false⟩
    { dbExists := false, schemas := [], migrationRuns := 0 } rfl

/-- Resource events of the short-lived synchronous engine used by the
administrative routines `create_schema` and `clone_db_schema`:
`beginConn` is the connection/transaction opened by
`with sync_engine.begin() as conn`, `connExit` is the block's exit handler
(which commits or rolls back and returns the connection whether or not the
body raised), `execCreateSchema` and `execCloneTable` are the executed SQL
statements, and `disposeEngine` is the `sync_engine.dispose()` call written
after the `with` block. -/
inductive AdminEvent where
  | beginConn
  | execCreateSchema (name : String)
  | execCloneTable (src tgt tbl : String)
  | connExit
  | disposeEngine
  deriving Repr, DecidableEq

/-- Whether an `Except` result is a normal completion. -/
def exceptOk {ε α : Type} : Except ε α → Bool
  | .ok _ => true
  | .error _ => false

/-- `DatabaseService.create_schema` (service.py lines 119-141) as a trace
semantics on `PgState`.  `createRaises` abstracts whether
`conn.execute(CreateSchema(schema_name))` raises, and `createEffective`
whether it takes effect (the code re-probes `has_schema` and merely logs an
error when not — non-fatal).  A raise escapes the `with` block, whose exit
handler still releases the connection (`connExit`), but control never
reaches `sync_engine.dispose()`, a plain statement after the block. -/
def create_schema (createRaises createEffective : Bool) (schema_name : String)
    (s : PgState) : List AdminEvent × Except String PgState :=
  if schema_name ∈ s.schemas then
    ([.beginConn, .connExit, .disposeEngine], .ok s)
  else if createRaises then
    ([.beginConn, .execCreateSchema schema_name, .connExit],
     .error "CreateSchema raised")
  else if createEffective then
    ([.beginConn, .execCreateSchema schema_name, .connExit, .disposeEngine],
     .ok { s with schemas := schema_name :: s.schemas })
  else
    ([.beginConn, .execCreateSchema schema_name, .connExit, .disposeEngine],
     .ok s)

/-- On the no-raise, effective path, the event-level `create_schema` has
exactly the state effect `create_schema_state` used by `create_db`. -/
theorem create_schema_ok_state (name : String) (s : PgState) :
    (create_schema false true name s).2 = .ok (create_schema_state name s) := by
  unfold create_schema create_schema_state
  split <;> rfl

/-- One row of the cluster catalog (`information_schema.tables` together
with the table's contents): its schema, its name, an abstract column
structure, and its row data. -/
structure TableInfo where
  schema : String
  name : String
  shape : Nat
  rows : List Nat
  deriving Repr, DecidableEq

/-- The cluster catalog seen by `clone_db_schema`: the existing tables. -/
abbrev Catalog := List TableInfo

/-- Whether a table exists in a schema of the catalog. -/
def tableExists (c : Catalog) (sch tbl : String) : Bool :=
  c.any (fun t => t.schema == sch && t.name == tbl)

/-- Catalog entry of a table, if present. -/
def findTable (c : Catalog) (sch tbl : String) : Option TableInfo :=
  c.find? (fun t => t.schema == sch && t.name == tbl)

/-- Semantics of one
`create table if not exists {tgt}.{tbl} (like {src}.{tbl} including all)`
statement (line 165): if the target table already exists the statement is a
no-op; otherwise it creates the table in `tgt` with the source table's
structure and no rows; if the source relation is missing, the statement
raises. -/
def cloneTableStmt (src tgt tbl : String) (c : Catalog) :
    Except String Catalog :=
  if tableExists c tgt tbl then .ok c
  else
    match findTable c src tbl with
    | some t =>
      .ok (c ++ [{ schema := tgt, name := tbl, shape := t.shape, rows := [] }])
    | none => .error "source relation does not exist"

/-- The per-table loop of `clone_db_schema` (lines 163-166): executes one
clone statement per enumerated table name, stopping at the first raise.
Returns the executed statements and the resulting catalog or the error. -/
def cloneTables (src tgt : String) :
    List String → Catalog → List AdminEvent × Except String Catalog
  | [], c => ([], .ok c)
  | tbl :: rest, c =>
    match cloneTableStmt src tgt tbl c with
    | .ok c2 =>
      let r := cloneTables src tgt rest c2
      (.execCloneTable src tgt tbl :: r.1, r.2)
    | .error e => ([.execCloneTable src tgt tbl], .error e)

/-- The source-table enumeration of `clone_db_schema` (line 159): the SQL
filters `information_schema.tables` by the hardcoded literal
`table_schema = 'tenant'` — not by the `source_schema_name` parameter. -/
def enumerateCloneSources (c : Catalog) : List String :=
  (c.filter (fun t => t.schema == "tenant")).map (fun t => t.name)

/-- `DatabaseService.clone_db_schema` (service.py lines 143-169) as a trace
semantics.  All statements run inside one `with sync_engine.begin()`
transaction, so when a statement raises, the transaction is rolled back
(catalog unchanged) and the exception escapes the block — whose exit
handler still releases the connection (`connExit`) but control skips the
`sync_engine.dispose()` written after the block. -/
def clone_db_schema (source_schema_name target_schema_name : String)
    (c : Catalog) : List AdminEvent × Except String Catalog :=
  let r := cloneTables source_schema_name target_schema_name
    (enumerateCloneSources c) c
  match r.2 with
  | .ok c2 => (.beginConn :: r.1 ++ [.connExit, .disposeEngine], .ok c2)
  | .error e => (.beginConn :: r.1 ++ [.connExit], .error e)

/-- Catalog of the C4 scenario: the caller-supplied source schema
`tenant_template` holds tables `accounts` and `orders`, the target
`tenant_42` already holds `accounts`, and the hardcoded catalog namespace
`tenant` holds no tables at all. -/
def c4Catalog : Catalog :=
  [{ schema := "tenant_template", name := "accounts", shape := 1, rows := [] },
   { schema := "tenant_template", name := "orders", shape := 2, rows := [] },
   { schema := "tenant_42", name := "accounts", shape := 1, rows := [] }]

/-- Claim C4 (code bug): `clone_db_schema("tenant_template", "tenant_42")`
is required to enumerate the tables of the caller-supplied source schema
and hence create `orders` in `tenant_42`; the code instead enumerates the
hardcoded `'tenant'` namespace (line 159), so on this catalog — where
`tenant` has no tables — it executes no clone statement, leaves the
catalog unchanged, and `tenant_42.orders` is never created. -/
theorem clone_db_schema_ignores_source_argument :
    (clone_db_schema "tenant_template" "tenant_42" c4Catalog).2 =
      .ok c4Catalog ∧
    (clone_db_schema "tenant_template" "tenant_42" c4Catalog).1 =
      [AdminEvent.beginConn, AdminEvent.connExit, AdminEvent.disposeEngine] ∧
    tableExists c4Catalog "tenant_42" "orders" = false ∧
    tableExists c4Catalog "tenant_template" "orders" = true :=
  ⟨rfl, rfl, rfl, rfl⟩

/-- Counterexample to claim C9: when the `CreateSchema` statement raises,
`create_schema` never reaches `sync_engine.dispose()` — the dispose call is
written after the `with` block, not in a `finally`, so it is skipped on
the raising exit path. -/
theorem create_schema_raise_skips_dispose :
    AdminEvent.disposeEngine ∉
      (create_schema true true "newschema"
        { dbExists := true, schemas := [], migrationRuns := 0 }).1 ∧
    exceptOk (create_schema true true "newschema"
        { dbExists := true, schemas := [], migrationRuns := 0 }).2 = false := by
  exact ⟨by decide, rfl⟩

/-- Number of connection releases (`with`-block exits) in an admin trace. -/
def connExitCount : List AdminEvent → Nat
  | [] => 0
  | .connExit :: tr => connExitCount tr + 1
  | _ :: tr => connExitCount tr

theorem connExitCount_append (a b : List AdminEvent) :
    connExitCount (a ++ b) = connExitCount a + connExitCount b := by
  induction a with
  | nil => simp [connExitCount]
  | cons e tr ih =>
    cases e <;>
      simp [connExitCount, ih, Nat.add_assoc, Nat.add_comm, Nat.add_left_comm]

theorem cloneTables_connExitCount (src tgt : String) (ts : List String)
    (c : Catalog) : connExitCount (cloneTables src tgt ts c).1 = 0 := by
  induction ts generalizing c with
  | nil => rfl
  | cons tbl rest ih =>
    unfold cloneTables
    cases hstmt : cloneTableStmt src tgt tbl c with
    | ok c2 => simp [hstmt, connExitCount, ih c2]
    | error e => simp [hstmt, connExitCount]

theorem cloneTables_no_dispose (src tgt : String) (ts : List String)
    (c : Catalog) :
    AdminEvent.disposeEngine ∉ (cloneTables src tgt ts c).1 := by
  induction ts generalizing c with
  | nil => simp [cloneTables]
  | cons tbl rest ih =>
    unfold cloneTables
    cases hstmt : cloneTableStmt src tgt tbl c with
    | ok c2 => simp [hstmt, ih c2]
    | error e => simp [hstmt]

/-- Claim C9, amended: both administrative routines release their
connection exactly once on every exit path — the scoped `with` block
guarantees that — but the engine `dispose()` is executed only on normal
completion: it is present in the trace exactly when the routine did not
raise, because the dispose call is placed after the `with` block rather
than in a `finally`. -/
theorem admin_connection_release (cr ce : Bool) (name : String) (s : PgState)
    (src tgt : String) (c : Catalog) :
    (connExitCount (create_schema cr ce name s).1 = 1 ∧
     (AdminEvent.disposeEngine ∈ (create_schema cr ce name s).1 ↔
       exceptOk (create_schema cr ce name s).2 = true)) ∧
    (connExitCount (clone_db_schema src tgt c).1 = 1 ∧
     (AdminEvent.disposeEngine ∈ (clone_db_schema src tgt c).1 ↔
       exceptOk (clone_db_schema src tgt c).2 = true)) := by
  constructor
  · unfold create_schema
    split_ifs <;> simp [connExitCount, exceptOk]
  · simp only [clone_db_schema]
    cases hr : (cloneTables src tgt (enumerateCloneSources c) c).2 with
    | ok c2 =>
      simp [connExitCount, connExitCount_append, cloneTables_connExitCount,
        exceptOk]
    | error e =>
      simp [connExitCount, connExitCount_append, cloneTables_connExitCount,
        exceptOk, cloneTables_no_dispose src tgt (enumerateCloneSources c) c]

theorem tableExists_append_left (c d : Catalog) (sch tbl : String)
    (h : tableExists c sch tbl = true) :
    tableExists (c ++ d) sch tbl = true := by
  simp only [tableExists, List.any_append, Bool.or_eq_true]
  exact Or.inl h

theorem cloneTableStmt_ok_cases (src tgt tbl : String) (c c2 : Catalog)
    (h : cloneTableStmt src tgt tbl c = .ok c2) :
    (tableExists c tgt tbl = true ∧ c2 = c) ∨
    ∃ sh, c2 = c ++ [{ schema := tgt, name := tbl, shape := sh, rows := [] }] := by
  unfold cloneTableStmt at h
  split at h
  · next hex =>
    left
    refine ⟨hex, ?_⟩
    injection h with h1
    exact h1.symm
  · cases hf : findTable c src tbl with
    | some t =>
      rw [hf] at h
      right
      refine ⟨t.shape, ?_⟩
      injection h with h1
      exact h1.symm
    | none =>
      rw [hf] at h
      exact absurd h (by simp)

theorem cloneTableStmt_ok_exists (src tgt tbl : String) (c c2 : Catalog)
    (h : cloneTableStmt src tgt tbl c = .ok c2) :
    tableExists c2 tgt tbl = true := by
  rcases cloneTableStmt_ok_cases src tgt tbl c c2 h with ⟨hex, rfl⟩ | ⟨sh, rfl⟩
  · exact hex
  · simp [tableExists, List.any_append]

theorem cloneTables_ok_append (src tgt : String) (ts : List String)
    (c c2 : Catalog) (evs : List AdminEvent)
    (h : cloneTables src tgt ts c = (evs, .ok c2)) :
    ∃ d, c2 = c ++ d ∧ ∀ t ∈ d, t.schema = tgt ∧ t.rows = [] := by
  induction ts generalizing c evs with
  | nil =>
    simp [cloneTables] at h
    exact ⟨[], by simp [← h.2], by simp⟩
  | cons tbl rest ih =>
    unfold cloneTables at h
    cases hstmt : cloneTableStmt src tgt tbl c with
    | ok cm =>
      rw [hstmt] at h
      simp only [Prod.mk.injEq] at h
      have hpair : cloneTables src tgt rest cm =
          ((cloneTables src tgt rest cm).1, .ok c2) := by
        rw [← h.2]
      obtain ⟨d, hd, hprop⟩ := ih cm _ hpair
      rcases cloneTableStmt_ok_cases src tgt tbl c cm hstmt with
        ⟨hex, rfl⟩ | ⟨sh, rfl⟩
      · exact ⟨d, hd, hprop⟩
      · refine ⟨{ schema := tgt, name := tbl, shape := sh, rows := [] } :: d,
          by simp [hd], ?_⟩
        intro t ht
        rcases List.mem_cons.mp ht with rfl | ht'
        · exact ⟨rfl, rfl⟩
        · exact hprop t ht'
    | error e =>
      rw [hstmt] at h
      simp at h

theorem cloneTables_ok_exists_all (src tgt : String) (ts : List String)
    (c c2 : Catalog) (evs : List AdminEvent)
    (h : cloneTables src tgt ts c = (evs, .ok c2)) :
    ∀ tbl ∈ ts, tableExists c2 tgt tbl = true := by
  induction ts generalizing c evs with
  | nil => simp
  | cons tbl rest ih =>
    unfold cloneTables at h
    cases hstmt : cloneTableStmt src tgt tbl c with
    | ok cm =>
      rw [hstmt] at h
      simp only [Prod.mk.injEq] at h
      have hpair : cloneTables src tgt rest cm =
          ((cloneTables src tgt rest cm).1, .ok c2) := by
        rw [← h.2]
      intro x hx
      rcases List.mem_cons.mp hx with rfl | hx'
      · have hcm : tableExists cm tgt x = true :=
          cloneTableStmt_ok_exists src tgt x c cm hstmt
        obtain ⟨d, rfl, -⟩ := cloneTables_ok_append src tgt rest cm c2 _ hpair
        exact tableExists_append_left _ _ _ _ hcm
      · exact ih cm _ hpair x hx'
    | error e =>
      rw [hstmt] at h
      simp at h

theorem cloneTables_skip_existing (src tgt : String) (a b : List String)
    (c : Catalog) (h : ∀ tbl ∈ a, tableExists c tgt tbl = true) :
    cloneTables src tgt (a ++ b) c =
      (a.map (fun t => AdminEvent.execCloneTable src tgt t)
         ++ (cloneTables src tgt b c).1,
       (cloneTables src tgt b c).2) := by
  induction a with
  | nil => simp [cloneTables]
  | cons tbl rest ih =>
    have hstmt : cloneTableStmt src tgt tbl c = .ok c := by
      unfold cloneTableStmt
      rw [if_pos (h tbl (by simp))]
    show cloneTables src tgt (tbl :: (rest ++ b)) c = _
    simp only [cloneTables, hstmt,
      ih (fun x hx => h x (List.mem_cons_of_mem _ hx)),
      List.map_cons, List.cons_append]

theorem enumerateCloneSources_exists (c : Catalog) :
    ∀ tbl ∈ enumerateCloneSources c, tableExists c "tenant" tbl = true := by
  intro tbl h
  simp only [enumerateCloneSources, List.mem_map, List.mem_filter] at h
  obtain ⟨t, ⟨ht, hsch⟩, rfl⟩ := h
  simp only [tableExists, List.any_eq_true]
  exact ⟨t, ht, by simp [hsch]⟩

theorem enumerateCloneSources_append (c d : Catalog)
    (hd : ∀ t ∈ d, t.schema ≠ "tenant") :
    enumerateCloneSources (c ++ d) = enumerateCloneSources c := by
  unfold enumerateCloneSources
  rw [List.filter_append]
  have hnil : d.filter (fun t => t.schema == "tenant") = [] := by
    rw [List.filter_eq_nil_iff]
    intro t ht
    simp [hd t ht]
  rw [hnil, List.append_nil]

theorem clone_db_schema_snd (src tgt : String) (c : Catalog) :
    (clone_db_schema src tgt c).2 =
      (cloneTables src tgt (enumerateCloneSources c) c).2 := by
  simp only [clone_db_schema]
  cases hr : (cloneTables src tgt (enumerateCloneSources c) c).2 <;> simp

/-- Claim C7: `clone_db_schema` is idempotent and copies structure only.
Given a successful run from catalog `c` to `c1`: re-running from `c1`
succeeds with the catalog unchanged (each per-table create is guarded by
the existence check, so the re-invocation is a no-op per table and raises
no duplicate-table error); every pre-existing table — including its row
data — is untouched; every table the run created lives in the target
schema and holds no rows (structure only, never row data); and if a run is
interrupted after a prefix `a` of the enumerated tables, re-running the
loop from the interrupted catalog behaves exactly as processing only the
remaining tables `b` — already-cloned tables are skipped untouched. -/
theorem clone_db_schema_idempotent (src tgt : String) (c c1 : Catalog)
    (evs : List AdminEvent)
    (h : clone_db_schema src tgt c = (evs, .ok c1)) :
    (clone_db_schema src tgt c1).2 = .ok c1 ∧
    (∀ t ∈ c, t ∈ c1) ∧
    (∀ t ∈ c1, t ∉ c → t.schema = tgt ∧ t.rows = []) ∧
    (∀ a b, enumerateCloneSources c = a ++ b →
      ∀ evsa ca, cloneTables src tgt a c = (evsa, Except.ok ca) →
        (cloneTables src tgt (a ++ b) ca).2 = (cloneTables src tgt b ca).2) := by
  have h2 : (cloneTables src tgt (enumerateCloneSources c) c).2 = .ok c1 := by
    rw [← clone_db_schema_snd, h]
  have hpair : cloneTables src tgt (enumerateCloneSources c) c =
      ((cloneTables src tgt (enumerateCloneSources c) c).1, .ok c1) := by
    rw [← h2]
  obtain ⟨d, hc1, hd⟩ := cloneTables_ok_append src tgt _ c c1 _ hpair
  refine ⟨?_, ?_, ?_, ?_⟩
  · by_cases htgt : tgt = "tenant"
    · subst htgt
      have hskip := cloneTables_skip_existing src "tenant"
        (enumerateCloneSources c) [] c (enumerateCloneSources_exists c)
      rw [List.append_nil] at hskip
      have hcc : (cloneTables src "tenant" (enumerateCloneSources c) c).2 =
          .ok c := by
        rw [hskip]
        rfl
      have hceq : c1 = c := by
        rw [h2] at hcc
        injection hcc with h1
      rw [hceq, clone_db_schema_snd]
      exact hcc
    · have hdnt : ∀ t ∈ d, t.schema ≠ "tenant" := by
        intro t ht
        rw [(hd t ht).1]
        exact htgt
      have henum : enumerateCloneSources c1 = enumerateCloneSources c := by
        rw [hc1]
        exact enumerateCloneSources_append c d hdnt
      have hex1 : ∀ tbl ∈ enumerateCloneSources c1,
          tableExists c1 tgt tbl = true := by
        rw [henum]
        exact cloneTables_ok_exists_all src tgt _ c c1 _ hpair
      have hskip := cloneTables_skip_existing src tgt
        (enumerateCloneSources c1) [] c1 hex1
      rw [List.append_nil] at hskip
      rw [clone_db_schema_snd, hskip]
      rfl
  · intro t ht
    rw [hc1]
    exact List.mem_append_left _ ht
  · intro t ht htc
    rw [hc1] at ht
    rcases List.mem_append.mp ht with h' | h'
    · exact absurd h' htc
    · exact hd t h'
  · intro a b _ evsa ca hca
    have hexa : ∀ tbl ∈ a, tableExists ca tgt tbl = true :=
      cloneTables_ok_exists_all src tgt a c ca evsa hca
    rw [cloneTables_skip_existing src tgt a b ca hexa]

/-- Catalog for the C7 witness: the hardcoded `tenant` namespace holds one
table `books` which carries a data row. -/
def c7Catalog : Catalog :=
  [{ schema := "tenant", name := "books", shape := 1, rows := [7] }]

/-- The catalog produced by cloning `c7Catalog` into schema `t42`. -/
def c7Cloned : Catalog :=
  [{ schema := "tenant", name := "books", shape := 1, rows := [7] },
   { schema := "t42", name := "books", shape := 1, rows := [] }]

/-- Witness for C7 at a concrete successful clone. -/
theorem clone_db_schema_idempotent_witness :
    (clone_db_schema "tenant" "t42" c7Cloned).2 = .ok c7Cloned ∧
    (∀ t ∈ c7Catalog, t ∈ c7Cloned) ∧
    (∀ t ∈ c7Cloned, t ∉ c7Catalog → t.schema = "t42" ∧ t.rows = []) ∧
    (∀ a b, enumerateCloneSources c7Catalog = a ++ b →
      ∀ evsa ca, cloneTables "tenant" "t42" a c7Catalog = (evsa, Except.ok ca) →
        (cloneTables "tenant" "t42" (a ++ b) ca).2 =
          (cloneTables "tenant" "t42" b ca).2) :=
  clone_db_schema_idempotent "tenant" "t42" c7Catalog c7Cloned
    [AdminEvent.beginConn, AdminEvent.execCloneTable "tenant" "t42" "books",
     AdminEvent.connExit, AdminEvent.disposeEngine] rfl

end DatabaseService
